import Mathlib

/-!
# Verification of the GHL sales-bot OAuth token lifecycle

Shallow embedding of `src/sales_bot/ghl_api.py` (classes `GHLAPI` and
`GHLClient`) and proofs of the specified properties of the token store,
the token refresher, the authenticated request executor, and the OAuth
authorization helper.

External effects (the Postgres store, the provider HTTP endpoints) are
modelled by explicit state passing and by response oracles supplied as
arguments; Python exceptions are modelled with `Except`.
-/

/-- One row of the `tokens` table (`id`, `access_token`, `refresh_token`,
`updated_at`).  Timestamps are modelled as naturals. -/
structure TokenRow where
  id : Nat
  access_token : String
  refresh_token : String
  updated_at : Nat
deriving Repr, DecidableEq

/-- The durable store together with the failure knobs the code can hit:
`reachable = false` models `psycopg2.OperationalError` on connect, and
`commitOk = false` models an exception raised by `execute`/`commit`
before the transaction commits.  `clock` is the value `NOW()` would
return; every commit advances it, so later writes get later timestamps. -/
structure TokenStore where
  reachable : Bool
  commitOk : Bool
  rows : List TokenRow
  clock : Nat
deriving Repr, DecidableEq

/-- The errors `get_tokens` / `update_tokens` can raise.  The code raises
`ValueError` with distinct messages for the connect failure and the
empty-table case, and re-raises anything else; the constructors keep
those paths distinguishable. -/
inductive StoreError where
  | notFound (msg : String)
  | unavailable (msg : String)
  | other (msg : String)
deriving Repr, DecidableEq

/-- The headers dict built by `GHLAPI.update_headers`. -/
structure Headers where
  authorization : String
  contentType : String
  version : String
deriving Repr, DecidableEq

/-- The in-memory state of a `GHLAPI` instance: `self.access_token`,
`self.refresh_token`, `self.headers`. -/
structure APIState where
  access_token : String
  refresh_token : String
  headers : Headers
deriving Repr, DecidableEq

/-- `GHLAPI.update_headers`: rebuild `self.headers` from the current
access token. -/
def update_headers (st : APIState) : APIState :=
  { st with
    headers :=
      { authorization := "Bearer " ++ st.access_token
        contentType := "application/json"
        version := "2021-04-15" } }

/-- The row produced by
`SELECT access_token, refresh_token FROM tokens ORDER BY updated_at DESC LIMIT 1`:
a row with maximal `updated_at` (ties broken towards the earlier row;
SQL leaves tie order unspecified). -/
def selectLatest : List TokenRow → Option TokenRow
  | [] => none
  | r :: rs =>
    match selectLatest rs with
    | none => some r
    | some b => if r.updated_at < b.updated_at then some b else some r

/-- `GHLAPI.get_tokens`: read the most recently updated token pair.
Raises (as `ValueError`) when the database is unreachable or the table
is empty. -/
def get_tokens (store : TokenStore) : Except StoreError (String × String) :=
  if store.reachable = false then
    .error (.unavailable "Failed to connect to database")
  else
    match selectLatest store.rows with
    | none => .error (.notFound "No tokens found in database")
    | some row => .ok (row.access_token, row.refresh_token)

/-- The effect of
`UPDATE tokens SET access_token=%s, refresh_token=%s, updated_at=NOW() WHERE id=1`:
only rows with `id = 1` are rewritten; the statement succeeds even when
no row matches. -/
def sqlUpdateRows (rows : List TokenRow) (a r : String) (now : Nat) : List TokenRow :=
  rows.map fun row =>
    if row.id = 1 then
      { row with access_token := a, refresh_token := r, updated_at := now }
    else row

/-- The store after the SQL update committed: rows rewritten at
`id = 1` with `updated_at = NOW()`, and the clock advanced past the
commit. -/
def committedStore (store : TokenStore) (a r : String) : TokenStore :=
  { store with rows := sqlUpdateRows store.rows a r store.clock, clock := store.clock + 1 }

/-- The in-memory state after the instance-field assignments of
`update_tokens`: both tokens replaced, headers rebuilt. -/
def resyncedState (st : APIState) (a r : String) : APIState :=
  update_headers { st with access_token := a, refresh_token := r }

/-- `GHLAPI.update_tokens`: run the SQL update and commit, then (and only
then) assign `self.access_token`, `self.refresh_token` and rebuild the
headers.  On any exception during the database work the instance fields
are left untouched; the triple returns the (possibly unchanged) instance
state and store alongside the outcome. -/
def update_tokens (st : APIState) (store : TokenStore) (a r : String) :
    Except StoreError Unit × APIState × TokenStore :=
  if store.reachable = false then
    (.error (.unavailable "Failed to connect to database"), st, store)
  else if store.commitOk = false then
    (.error (.other "Error updating tokens in database"), st, store)
  else
    (.ok (), resyncedState st a r, committedStore store a r)

-- Basic facts about `selectLatest`.

lemma selectLatest_isSome {rows : List TokenRow} (h : rows ≠ []) :
    ∃ r, selectLatest rows = some r := by
  cases rows with
  | nil => exact absurd rfl h
  | cons x xs =>
    simp only [selectLatest]
    cases selectLatest xs with
    | none => exact ⟨x, rfl⟩
    | some b =>
      by_cases hlt : x.updated_at < b.updated_at
      · exact ⟨b, by simp [hlt]⟩
      · exact ⟨x, by simp [hlt]⟩

lemma selectLatest_mem (rows : List TokenRow) :
    ∀ r, selectLatest rows = some r → r ∈ rows := by
  induction rows with
  | nil => intro r h; simp [selectLatest] at h
  | cons x xs ih =>
    intro r h
    simp only [selectLatest] at h
    cases hx : selectLatest xs with
    | none =>
      rw [hx] at h
      simp at h
      simp [h]
    | some b =>
      rw [hx] at h
      by_cases hlt : x.updated_at < b.updated_at
      · simp [hlt] at h
        exact List.mem_cons_of_mem _ (h ▸ ih b hx)
      · simp [hlt] at h
        simp [h]

lemma selectLatest_max (rows : List TokenRow) :
    ∀ r, selectLatest rows = some r → ∀ x ∈ rows, x.updated_at ≤ r.updated_at := by
  induction rows with
  | nil => intro r h; simp [selectLatest] at h
  | cons y ys ih =>
    intro r h x hx
    simp only [selectLatest] at h
    cases hy : selectLatest ys with
    | none =>
      rw [hy] at h
      simp at h
      cases ys with
      | nil =>
        rcases List.mem_cons.mp hx with hxy | hxys
        · subst hxy; rw [← h]
        · simp at hxys
      | cons z zs =>
        exfalso
        rcases @selectLatest_isSome (z :: zs) (by simp) with ⟨w, hw⟩
        rw [hw] at hy
        cases hy
    | some b =>
      rw [hy] at h
      by_cases hlt : y.updated_at < b.updated_at
      · simp [hlt] at h
        subst h
        rcases List.mem_cons.mp hx with hxy | hxys
        · subst hxy; exact le_of_lt hlt
        · exact ih b hy x hxys
      · simp [hlt] at h
        subst h
        rcases List.mem_cons.mp hx with hxy | hxys
        · subst hxy; exact le_refl _
        · exact le_trans (ih b hy x hxys) (le_of_not_lt hlt)

/-! ## The token endpoint and the refresher

`requests.post(...).raise_for_status()` raises `HTTPError` exactly for
status codes in `[400, 600)`; `response.json()` raises when the body is
not valid JSON (modelled as `body = none`); a missing dictionary key
raises `KeyError`.  The outcome of the single `POST` to the token
endpoint is an oracle argument. -/

/-- Outcome of one `requests.post` to the OAuth token endpoint: either a
transport-level exception, or a response with a status code and (when
the body parses as JSON) an object of string fields. -/
inductive TokenOutcome where
  | transport (msg : String)
  | resp (status : Nat) (body : Option (List (String × String)))
deriving Repr, DecidableEq

/-- The exception raised inside `refresh_access_token`'s `try` block
(and logged by its `except` handler as the underlying cause). -/
inductive RefreshCause where
  | transportError (msg : String)
  | httpStatusError (status : Nat)
  | jsonDecodeError
  | keyError (field : String)
  | storeError (e : StoreError)
deriving Repr, DecidableEq

/-- The body of `GHLAPI.refresh_access_token`'s `try` block: post to the
token endpoint, `raise_for_status`, parse the JSON body, read
`tokens["access_token"]` and `tokens["refresh_token"]`, then call
`update_tokens`.  Returns the raised exception (if any) together with
the instance state and store as the block leaves them. -/
def refreshAttempt (st : APIState) (store : TokenStore) (tok : TokenOutcome) :
    Except RefreshCause Unit × APIState × TokenStore :=
  match tok with
  | .transport msg => (.error (.transportError msg), st, store)
  | .resp status body =>
    if 400 ≤ status ∧ status < 600 then
      (.error (.httpStatusError status), st, store)
    else
      match body with
      | none => (.error .jsonDecodeError, st, store)
      | some fields =>
        match List.lookup "access_token" fields with
        | none => (.error (.keyError "access_token"), st, store)
        | some a =>
          match List.lookup "refresh_token" fields with
          | none => (.error (.keyError "refresh_token"), st, store)
          | some r =>
            match update_tokens st store a r with
            | (.ok _, st', store') => (.ok (), st', store')
            | (.error e, st', store') => (.error (.storeError e), st', store')

/-- `GHLAPI.refresh_access_token`: run the `try` block; on success
return `True`, on any exception log it and return `False`. -/
def refresh_access_token (st : APIState) (store : TokenStore) (tok : TokenOutcome) :
    Bool × APIState × TokenStore :=
  match refreshAttempt st store tok with
  | (.ok _, st', store') => (true, st', store')
  | (.error _, st', store') => (false, st', store')

/-! ## The authenticated request executor -/

/-- A parsed JSON value, as returned by `response.json()` for the
business API. -/
inductive JsonVal where
  | null
  | bool (b : Bool)
  | num (n : Int)
  | str (s : String)
  | arr (xs : List JsonVal)
  | obj (fields : List (String × JsonVal))
deriving Repr

/-- Outcome of one `client.request` call to the business API. -/
inductive BizOutcome where
  | transport (msg : String)
  | resp (status : Nat) (body : Option JsonVal)
deriving Repr

/-- The exception propagated out of `_make_request` (logged and
re-raised by its `except` handler). -/
inductive ReqErr where
  | transportError (msg : String)
  | httpStatusError (status : Nat)
  | jsonDecodeError
deriving Repr, DecidableEq

/-- `response.raise_for_status()` followed by `response.json()`:
an `HTTPError` for a 4xx/5xx status, a decode error for a body that is
not valid JSON, otherwise the parsed body. -/
def finishResponse (status : Nat) (body : Option JsonVal) : Except ReqErr JsonVal :=
  if 400 ≤ status ∧ status < 600 then .error (.httpStatusError status)
  else
    match body with
    | none => .error .jsonDecodeError
    | some j => .ok j

/-- The next scripted business-API response.  An exhausted script is a
model artifact and behaves as a transport failure. -/
def nextBiz : List BizOutcome → BizOutcome
  | [] => .transport "no scripted response"
  | o :: _ => o

/-- The full observable behaviour of one `_make_request` call: the
result (or raised exception), the final instance state and store, how
many business-API and refresh calls were made, and the `Authorization`
header attached to each business-API call in order. -/
structure MRResult where
  result : Except ReqErr JsonVal
  st : APIState
  store : TokenStore
  bizCalls : Nat
  refreshCalls : Nat
  sentAuth : List String
deriving Repr

/-- `GHLAPI._make_request`: send with the current headers; on a 401,
call `refresh_access_token` and, if it returned `True`, call
`update_headers` and retry once with the new headers; finally
`raise_for_status` on the last response (the original 401 response when
the refresh failed) and return its JSON body.  `biz` scripts the
successive business-API responses and `tok` the (at most one) token
endpoint response. -/
def make_request (st : APIState) (store : TokenStore)
    (biz : List BizOutcome) (tok : TokenOutcome) : MRResult :=
  match nextBiz biz with
  | .transport msg =>
      { result := .error (.transportError msg), st := st, store := store
        bizCalls := 1, refreshCalls := 0
        sentAuth := [st.headers.authorization] }
  | .resp s1 b1 =>
    if s1 = 401 then
      match refresh_access_token st store tok with
      | (true, st1, store1) =>
        let st2 := update_headers st1
        match nextBiz (biz.drop 1) with
        | .transport msg =>
            { result := .error (.transportError msg), st := st2, store := store1
              bizCalls := 2, refreshCalls := 1
              sentAuth := [st.headers.authorization, st2.headers.authorization] }
        | .resp s2 b2 =>
            { result := finishResponse s2 b2, st := st2, store := store1
              bizCalls := 2, refreshCalls := 1
              sentAuth := [st.headers.authorization, st2.headers.authorization] }
      | (false, st1, store1) =>
          { result := finishResponse s1 b1, st := st1, store := store1
            bizCalls := 1, refreshCalls := 1
            sentAuth := [st.headers.authorization] }
    else
      { result := finishResponse s1 b1, st := st, store := store
        bizCalls := 1, refreshCalls := 0
        sentAuth := [st.headers.authorization] }

/-- Python `str()` applied to a parsed JSON value, as used by
`get_contact_pipeline` on a non-dict `pipeline` field.  The exact
rendering of composite values is irrelevant to every property proved
here; scalars follow Python. -/
def jsonToStr : JsonVal → String
  | .null => "None"
  | .bool true => "True"
  | .bool false => "False"
  | .num n => toString n
  | .str s => s
  | .arr _ => "<list>"
  | .obj _ => "<dict>"

/-- `GHLAPI.get_contact_pipeline`: call the contacts endpoint through
`_make_request`; on any exception (from the request, or an
`AttributeError` from `.get` on a non-dict body) return `""`.
Otherwise extract `data.get("pipeline", {})` and from a dict pipeline
`pipeline.get("name", "")` (any JSON value), else `str(pipeline)`. -/
def get_contact_pipeline (st : APIState) (store : TokenStore)
    (biz : List BizOutcome) (tok : TokenOutcome) : JsonVal × APIState × TokenStore :=
  let mr := make_request st store biz tok
  match mr.result with
  | .error _ => (.str "", mr.st, mr.store)
  | .ok data =>
    match data with
    | .obj fields =>
      match (List.lookup "pipeline" fields).getD (.obj []) with
      | .obj pf => ((List.lookup "name" pf).getD (.str ""), mr.st, mr.store)
      | other => (.str (jsonToStr other), mr.st, mr.store)
    | _ => (.str "", mr.st, mr.store)

/-- `GHLAPI.send_sms`: post the message through `_make_request`; return
`True` on success and `False` on any exception. -/
def send_sms (st : APIState) (store : TokenStore)
    (biz : List BizOutcome) (tok : TokenOutcome) : Bool × APIState × TokenStore :=
  let mr := make_request st store biz tok
  match mr.result with
  | .error _ => (false, mr.st, mr.store)
  | .ok _ => (true, mr.st, mr.store)

/-! ## The OAuth authorization helper (`GHLClient`) -/

/-- `GHLClient.oauth_url`. -/
def oauth_url : String := "https://marketplace.gohighlevel.com/oauth"

/-- The fixed `scope` value of `GHLClient.get_authorization_url`. -/
def defaultScope : String :=
  "contacts.readonly contacts.write conversations.readonly conversations.write locations.readonly locations.write opportunities.readonly opportunities.write users.readonly users.write"

/-- Python `"&".join(...)`. -/
def joinAmp : List String → String
  | [] => ""
  | [s] => s
  | s :: rest => s ++ "&" ++ joinAmp rest

/-- `GHLClient.get_authorization_url`: build the query string by raw
concatenation `f"{k}={v}"` of the parameter values, with no
percent-encoding.  `state` is appended only when truthy (non-`None` and
non-empty). -/
def get_authorization_url (client_id redirect_uri : String)
    (state : Option String) : String :=
  let params : List (String × String) :=
    [("client_id", client_id), ("redirect_uri", redirect_uri),
     ("response_type", "code"), ("scope", defaultScope)]
  let params :=
    match state with
    | some s => if s = "" then params else params ++ [("state", s)]
    | none => params
  let query_string := joinAmp (params.map fun kv => kv.1 ++ "=" ++ kv.2)
  oauth_url ++ "/authorize?" ++ query_string

/-- `GHLClient.exchange_code_for_token`: one `requests.post` to the
token endpoint, `raise_for_status`, then return `response.json()`
verbatim — the body's fields are not inspected and nothing is written
to the token store (the caller persists the result). -/
def exchange_code_for_token (resp : TokenOutcome) :
    Except ReqErr (List (String × String)) :=
  match resp with
  | .transport msg => .error (.transportError msg)
  | .resp status body =>
    if 400 ≤ status ∧ status < 600 then .error (.httpStatusError status)
    else
      match body with
      | none => .error .jsonDecodeError
      | some fields => .ok fields

/-! ## Standard URL query parsing

A reference parser for the round-trip property P5: split the query off
at the first `?`, split parameters on `&`, split each parameter into
key and value at the first `=`, and percent-decode the value (with `+`
for space, as `urllib.parse.parse_qsl` does).  It is defined over
`List Char` so that concrete instances evaluate in the kernel. -/

/-- Numeric value of a hexadecimal digit (code points 0-9, A-F, a-f). -/
def hexVal (c : Char) : Option Nat :=
  let n := c.toNat
  if 48 ≤ n ∧ n ≤ 57 then some (n - 48)
  else if 65 ≤ n ∧ n ≤ 70 then some (n - 55)
  else if 97 ≤ n ∧ n ≤ 102 then some (n - 87)
  else none

/-- Percent-decoding of a query value (`%XY` escapes and `+` for
space); a malformed escape keeps its `%` literally and scanning resumes
at the next character. -/
def percentDecode : List Char → List Char
  | [] => []
  | ['%'] => ['%']
  | ['%', c1] => ['%', c1]
  | '%' :: c1 :: c2 :: rest2 =>
    match hexVal c1, hexVal c2 with
    | some h, some l => Char.ofNat (16 * h + l) :: percentDecode rest2
    | _, _ => '%' :: c1 :: c2 :: percentDecode rest2
  | '+' :: rest => ' ' :: percentDecode rest
  | c :: rest => c :: percentDecode rest

/-- Split a character list on every occurrence of a separator. -/
def splitOnChar (sep : Char) : List Char → List (List Char)
  | [] => [[]]
  | c :: rest =>
    match splitOnChar sep rest with
    | [] => if c = sep then [[], []] else [[c]]
    | h :: t => if c = sep then [] :: h :: t else (c :: h) :: t

/-- Split one `key=value` parameter at the first `=`; a parameter with
no `=` gets the empty value. -/
def splitKV : List Char → List Char × List Char
  | [] => ([], [])
  | '=' :: rest => ([], rest)
  | c :: rest =>
    let kv := splitKV rest
    (c :: kv.1, kv.2)

/-- The query part of a URL: everything after the first `?`. -/
def queryOfUrl : List Char → List Char
  | [] => []
  | '?' :: rest => rest
  | _ :: rest => queryOfUrl rest

/-- Standard parsing of a query string into decoded key-value pairs. -/
def parseQuery (q : List Char) : List (List Char × List Char) :=
  (splitOnChar '&' q).map fun p =>
    ((splitKV p).1, percentDecode (splitKV p).2)

/-- First value bound to a key among parsed parameters. -/
def findParam (key : List Char) : List (List Char × List Char) → Option (List Char)
  | [] => none
  | kv :: rest => if kv.1 = key then some kv.2 else findParam key rest

/-- What standard URL parsing recovers for `key` from a full URL. -/
def parsedParamOfUrl (url : String) (key : String) : Option (List Char) :=
  findParam key.data (parseQuery (queryOfUrl url.data))

/-! ## Concrete fixtures for witnesses and counterexamples -/

/-- An in-memory state seeded with the pre-refresh pair. -/
def st0 : APIState :=
  ⟨"oldA", "oldR", ⟨"Bearer oldA", "application/json", "2021-04-15"⟩⟩

/-- A healthy store holding the current row with `id = 1`. -/
def store0 : TokenStore := ⟨true, true, [⟨1, "oldA", "oldR", 0⟩], 1⟩

/-- A healthy store whose `tokens` table is empty. -/
def emptyStore : TokenStore := ⟨true, true, [], 0⟩

/-- A token-endpoint response that refreshes successfully. -/
def goodTok : TokenOutcome :=
  .resp 200 (some [("access_token", "newA"), ("refresh_token", "newR")])

/-- The in-memory state after refreshing `st0` against `goodTok`. -/
def stNew : APIState :=
  ⟨"newA", "newR", ⟨"Bearer newA", "application/json", "2021-04-15"⟩⟩

/-- The store after refreshing `store0` against `goodTok`. -/
def storeNew : TokenStore := ⟨true, true, [⟨1, "newA", "newR", 1⟩], 2⟩

/-! ## Helper lemmas -/

lemma update_headers_idem (st : APIState) :
    update_headers (update_headers st) = update_headers st := rfl

/-- A successful `refresh_access_token` resynchronizes: the new
in-memory state was produced by `update_tokens`, and the new store
carries the same write. -/
lemma refresh_true_spec {st : APIState} {store : TokenStore} {tok : TokenOutcome}
    {st1 : APIState} {store1 : TokenStore}
    (h : refresh_access_token st store tok = (true, st1, store1)) :
    ∃ a r, st1 = resyncedState st a r ∧ store1 = committedStore store a r := by
  cases tok with
  | transport msg => simp [refresh_access_token, refreshAttempt] at h
  | resp s body =>
    by_cases hs : 400 ≤ s ∧ s < 600
    · simp [refresh_access_token, refreshAttempt, hs] at h
    · cases body with
      | none => simp [refresh_access_token, refreshAttempt, hs] at h
      | some fields =>
        cases ha : List.lookup "access_token" fields with
        | none => simp [refresh_access_token, refreshAttempt, hs, ha] at h
        | some a =>
          cases hr : List.lookup "refresh_token" fields with
          | none => simp [refresh_access_token, refreshAttempt, hs, ha, hr] at h
          | some r =>
            by_cases hreach : store.reachable = false
            · simp [refresh_access_token, refreshAttempt, update_tokens,
                    hs, ha, hr, hreach] at h
            · by_cases hcommit : store.commitOk = false
              · simp [refresh_access_token, refreshAttempt, update_tokens,
                      hs, ha, hr, hreach, hcommit] at h
              · simp [refresh_access_token, refreshAttempt, update_tokens,
                      hs, ha, hr, hreach, hcommit] at h
                exact ⟨a, r, h.1.symm, h.2.symm⟩

/-- After a successful refresh the new state is a fixed point of
`update_headers` and its header carries the new access token. -/
lemma refresh_true_fixed {st : APIState} {store : TokenStore} {tok : TokenOutcome}
    {st1 : APIState} {store1 : TokenStore}
    (h : refresh_access_token st store tok = (true, st1, store1)) :
    update_headers st1 = st1 ∧
    st1.headers.authorization = "Bearer " ++ st1.access_token := by
  rcases refresh_true_spec h with ⟨a, r, hst, -⟩
  subst hst
  exact ⟨update_headers_idem _, rfl⟩

/-! ## Claim theorems -/

/-- C6: `load_current` (`get_tokens`) fails with the store-unavailable
error when the backing store cannot be reached, fails with the
not-found error when no token pair exists (first-run state), and
otherwise returns the pair of a row with the latest `updated_at`. -/
theorem C6_load_current (store : TokenStore) :
    (store.reachable = false →
       get_tokens store = .error (.unavailable "Failed to connect to database")) ∧
    (store.reachable = true → store.rows = [] →
       get_tokens store = .error (.notFound "No tokens found in database")) ∧
    (store.reachable = true → store.rows ≠ [] →
       ∃ row, row ∈ store.rows ∧
         get_tokens store = .ok (row.access_token, row.refresh_token) ∧
         ∀ x ∈ store.rows, x.updated_at ≤ row.updated_at) := by
  refine ⟨fun h => by simp [get_tokens, h], fun h hrows => ?_, fun h hrows => ?_⟩
  · simp [get_tokens, h, hrows, selectLatest]
  · rcases selectLatest_isSome hrows with ⟨r, hr⟩
    exact ⟨r, selectLatest_mem _ r hr, by simp [get_tokens, h, hr],
           selectLatest_max _ r hr⟩

/-- Witness for C6 at concrete stores: the empty store raises the
not-found error, the unreachable store the unavailable error, and a
two-row store yields the row with the later `updated_at`. -/
theorem C6_load_current_witness :
    get_tokens emptyStore = .error (.notFound "No tokens found in database") ∧
    get_tokens { emptyStore with reachable := false } =
      .error (.unavailable "Failed to connect to database") :=
  ⟨(C6_load_current emptyStore).2.1 rfl rfl,
   (C6_load_current { emptyStore with reachable := false }).1 rfl⟩

/-- C3 fails as stated: `update_tokens` runs
`UPDATE tokens SET ... WHERE id=1`, not an upsert, so on a store whose
`tokens` table has no row with `id = 1` (here: empty) the save
"succeeds" while writing nothing, and `load_current` does not return
the saved pair. -/
theorem C3_save_load_counterexample :
    (update_tokens st0 emptyStore "A" "R").1 = .ok () ∧
    get_tokens (update_tokens st0 emptyStore "A" "R").2.2 ≠ .ok ("A", "R") := by
  refine ⟨rfl, fun h => ?_⟩
  have h2 : (Except.error (StoreError.notFound "No tokens found in database") :
      Except StoreError (String × String)) = .ok ("A", "R") := h
  exact Except.noConfusion h2

/-- C3 (amended): provided the store is reachable, the commit succeeds,
the `tokens` table has a row with `id = 1`, and `NOW()` is later than
every stored `updated_at`, a successful `save` (`update_tokens`) is
followed by `load_current` (`get_tokens`) returning exactly the saved
access/refresh pair — never a mix and never an earlier pair. -/
theorem C3_save_load_roundtrip (st : APIState) (store : TokenStore) (a r : String)
    (hreach : store.reachable = true) (hcommit : store.commitOk = true)
    (hid : ∃ row ∈ store.rows, row.id = 1)
    (hfresh : ∀ row ∈ store.rows, row.updated_at < store.clock) :
    update_tokens st store a r = (.ok (), resyncedState st a r, committedStore store a r) ∧
    get_tokens (committedStore store a r) = .ok (a, r) := by
  rcases hid with ⟨w, hw, hwid⟩
  have hne : sqlUpdateRows store.rows a r store.clock ≠ [] := by
    intro hnil
    simp only [sqlUpdateRows, List.map_eq_nil_iff] at hnil
    rw [hnil] at hw
    simp at hw
  rcases selectLatest_isSome hne with ⟨sel, hsel⟩
  have hselmem := selectLatest_mem _ sel hsel
  have hmax := selectLatest_max _ sel hsel
  have hwmem : ({ w with access_token := a, refresh_token := r, updated_at := store.clock } :
      TokenRow) ∈ sqlUpdateRows store.rows a r store.clock := by
    simp only [sqlUpdateRows, List.mem_map]
    exact ⟨w, hw, by simp [hwid]⟩
  have hclock_le : store.clock ≤ sel.updated_at := hmax _ hwmem
  rcases List.mem_map.mp hselmem with ⟨y, hy, hy2⟩
  have hsel_fields : sel.access_token = a ∧ sel.refresh_token = r := by
    by_cases hyid : y.id = 1
    · rw [← hy2]
      simp [hyid]
    · exfalso
      have hsy : sel = y := by rw [← hy2]; simp [hyid]
      have := hfresh y hy
      rw [← hsy] at this
      omega
  refine ⟨by simp [update_tokens, hreach, hcommit], ?_⟩
  simp [get_tokens, committedStore, hreach, hsel, hsel_fields.1, hsel_fields.2]

/-- Witness for C3 (amended) on the concrete one-row store. -/
theorem C3_save_load_roundtrip_witness :
    update_tokens st0 store0 "A" "R" =
      (.ok (), resyncedState st0 "A" "R", committedStore store0 "A" "R") ∧
    get_tokens (committedStore store0 "A" "R") = .ok ("A", "R") :=
  C3_save_load_roundtrip st0 store0 "A" "R" rfl rfl
    ⟨⟨1, "oldA", "oldR", 0⟩, by decide, rfl⟩ (by decide)

/-- C10: when the durable-store write fails — connection failure or
failed commit, both raised before the instance-field assignments —
`update_tokens` propagates the error and leaves the in-memory access
token, refresh token, and headers exactly as they were. -/
theorem C10_update_tokens_no_partial (st : APIState) (store : TokenStore) (a r : String)
    (h : store.reachable = false ∨ store.commitOk = false) :
    ∃ e, update_tokens st store a r = (.error e, st, store) := by
  by_cases h2 : store.reachable = false
  · exact ⟨.unavailable "Failed to connect to database", by simp [update_tokens, h2]⟩
  · rcases h with h | h
    · exact absurd h h2
    · exact ⟨.other "Error updating tokens in database", by simp [update_tokens, h2, h]⟩

/-- Witness for C10: a failed commit on the one-row store. -/
theorem C10_update_tokens_no_partial_witness :
    ∃ e, update_tokens st0 { store0 with commitOk := false } "A" "R" =
      (.error e, st0, { store0 with commitOk := false }) :=
  C10_update_tokens_no_partial st0 { store0 with commitOk := false } "A" "R" (Or.inr rfl)

/-- C4 fails as stated for statuses that are neither 2xx nor 4xx/5xx:
`raise_for_status` raises only for statuses in `[400, 600)`, so a 302
token-endpoint response carrying a well-formed body makes
`refresh_access_token` succeed and write the store. -/
theorem C4_refresh_failure_counterexample :
    (refresh_access_token st0 store0
       (.resp 302 (some [("access_token", "newA"), ("refresh_token", "newR")]))).1 = true ∧
    (refresh_access_token st0 store0
       (.resp 302 (some [("access_token", "newA"), ("refresh_token", "newR")]))).2.2.rows ≠
      store0.rows := by
  exact ⟨rfl, by decide⟩

/-- C4 (amended): on a transport error, a 4xx/5xx status, or a response
body missing the `access_token` or `refresh_token` field,
`refresh_access_token` signals failure, the exception of the `try`
block carries the corresponding underlying cause, and neither the token
store nor the in-memory state changes (no write occurs). -/
theorem C4_refresh_failure (st : APIState) (store : TokenStore) :
    (∀ msg, refresh_access_token st store (.transport msg) = (false, st, store) ∧
       (refreshAttempt st store (.transport msg)).1 = .error (.transportError msg)) ∧
    (∀ s body, 400 ≤ s → s < 600 →
       refresh_access_token st store (.resp s body) = (false, st, store) ∧
       (refreshAttempt st store (.resp s body)).1 = .error (.httpStatusError s)) ∧
    (∀ s fields, ¬(400 ≤ s ∧ s < 600) →
       List.lookup "access_token" fields = none →
       refresh_access_token st store (.resp s (some fields)) = (false, st, store) ∧
       (refreshAttempt st store (.resp s (some fields))).1 =
         .error (.keyError "access_token")) ∧
    (∀ s fields a, ¬(400 ≤ s ∧ s < 600) →
       List.lookup "access_token" fields = some a →
       List.lookup "refresh_token" fields = none →
       refresh_access_token st store (.resp s (some fields)) = (false, st, store) ∧
       (refreshAttempt st store (.resp s (some fields))).1 =
         .error (.keyError "refresh_token")) := by
  refine ⟨fun msg => ?_, fun s body h4 h6 => ?_, fun s fields hs ha => ?_,
          fun s fields a hs ha hr => ?_⟩
  · exact ⟨rfl, rfl⟩
  · have hs : 400 ≤ s ∧ s < 600 := ⟨h4, h6⟩
    exact ⟨by simp [refresh_access_token, refreshAttempt, hs],
           by simp [refreshAttempt, hs]⟩
  · exact ⟨by simp [refresh_access_token, refreshAttempt, hs, ha],
           by simp [refreshAttempt, hs, ha]⟩
  · exact ⟨by simp [refresh_access_token, refreshAttempt, hs, ha, hr],
           by simp [refreshAttempt, hs, ha, hr]⟩

/-- Witness for C4 (amended): a refresh token rejected by the provider
with HTTP 400 and an `invalid_grant` body fails and leaves the one-row
store (and the in-memory state) unchanged. -/
theorem C4_refresh_failure_witness :
    refresh_access_token st0 store0 (.resp 400 (some [("error", "invalid_grant")])) =
      (false, st0, store0) :=
  ((C4_refresh_failure st0 store0).2.1 400 (some [("error", "invalid_grant")])
    (by decide) (by decide)).1

/-- C9 fails as stated: a 2xx token-exchange response whose JSON body
lacks the token pair fields is returned as-is by
`exchange_code_for_token`, not rejected — the fields are only read by
the caller. -/
theorem C9_exchange_counterexample :
    exchange_code_for_token (.resp 200 (some [])) = .ok [] ∧
    List.lookup "access_token" ([] : List (String × String)) = none :=
  ⟨rfl, rfl⟩

/-- C9 (amended): `exchange_code_for_token` fails on a transport error,
on a 4xx/5xx status, or on a body that is not valid JSON; any other
response body is returned verbatim — without checking that the token
pair fields are present — and the token store is never written (the
function does not touch it; the caller persists the result). -/
theorem C9_exchange_code (resp : TokenOutcome) :
    (∀ msg, resp = .transport msg →
       exchange_code_for_token resp = .error (.transportError msg)) ∧
    (∀ s body, resp = .resp s body → 400 ≤ s → s < 600 →
       exchange_code_for_token resp = .error (.httpStatusError s)) ∧
    (∀ s, resp = .resp s none → ¬(400 ≤ s ∧ s < 600) →
       exchange_code_for_token resp = .error .jsonDecodeError) ∧
    (∀ s fields, resp = .resp s (some fields) → ¬(400 ≤ s ∧ s < 600) →
       exchange_code_for_token resp = .ok fields) := by
  refine ⟨?_, ?_, ?_, ?_⟩
  · rintro msg rfl
    rfl
  · rintro s body rfl h4 h6
    have hs : 400 ≤ s ∧ s < 600 := ⟨h4, h6⟩
    simp [exchange_code_for_token, hs]
  · rintro s rfl hs
    simp [exchange_code_for_token, hs]
  · rintro s fields rfl hs
    simp [exchange_code_for_token, hs]

/-- Witness for C9 (amended): an authorization code rejected with HTTP
400 raises, and a 201 response body is handed back unchanged. -/
theorem C9_exchange_code_witness :
    exchange_code_for_token (.resp 400 (some [("error", "invalid_grant")])) =
      .error (.httpStatusError 400) ∧
    exchange_code_for_token (.resp 201 (some [("access_token", "a")])) =
      .ok [("access_token", "a")] :=
  ⟨(C9_exchange_code (.resp 400 (some [("error", "invalid_grant")]))).2.1
      400 (some [("error", "invalid_grant")]) rfl (by decide) (by decide),
   (C9_exchange_code (.resp 201 (some [("access_token", "a")]))).2.2.2
      201 [("access_token", "a")] rfl (by decide)⟩

/-- C1: when the first business response is 401 and the token refresh
succeeds, `_make_request` updates the cached in-memory token and
headers, retries the original request exactly once carrying the new
access token, invokes the refresher exactly once, and returns the
parsed body of the retried 2xx response. -/
theorem C1_single_retry_success (st st1 : APIState) (store store1 : TokenStore)
    (b1 : Option JsonVal) (s2 : Nat) (j : JsonVal) (rest : List BizOutcome)
    (tok : TokenOutcome)
    (hrefresh : refresh_access_token st store tok = (true, st1, store1))
    (h2 : 200 ≤ s2) (h3 : s2 < 300) :
    make_request st store (.resp 401 b1 :: .resp s2 (some j) :: rest) tok =
      { result := .ok j, st := st1, store := store1, bizCalls := 2, refreshCalls := 1,
        sentAuth := [st.headers.authorization, "Bearer " ++ st1.access_token] } := by
  have hfix := refresh_true_fixed hrefresh
  have hns : ¬(400 ≤ s2 ∧ s2 < 600) := by omega
  simp [make_request, nextBiz, hrefresh, finishResponse, hns, hfix.1, hfix.2]

/-- Witness for C1: 401 then 200 against the one-row store with a
well-formed refresh. -/
theorem C1_single_retry_success_witness :
    make_request st0 store0 [.resp 401 none, .resp 200 (some (.obj []))] goodTok =
      { result := .ok (.obj []), st := stNew, store := storeNew,
        bizCalls := 2, refreshCalls := 1,
        sentAuth := ["Bearer oldA", "Bearer newA"] } :=
  C1_single_retry_success st0 stNew store0 storeNew none 200 (.obj []) [] goodTok
    rfl (by decide) (by decide)

/-- C2: `_make_request` never performs more than two business-API calls
nor more than one refresh, whatever the provider does; and against a
provider answering 401 to every business request (with the refresh
itself succeeding) it surfaces the 401 failure after exactly two
business calls and one refresh call. -/
theorem C2_no_retry_storm (st : APIState) (store : TokenStore) (tok : TokenOutcome) :
    (∀ biz, (make_request st store biz tok).bizCalls ≤ 2 ∧
       (make_request st store biz tok).refreshCalls ≤ 1) ∧
    (∀ n b st1 store1, refresh_access_token st store tok = (true, st1, store1) →
       make_request st store (List.replicate (n + 2) (.resp 401 b)) tok =
         { result := .error (.httpStatusError 401), st := st1, store := store1,
           bizCalls := 2, refreshCalls := 1,
           sentAuth := [st.headers.authorization, "Bearer " ++ st1.access_token] }) := by
  constructor
  · intro biz
    rcases biz with _ | ⟨o, rest⟩
    · simp [make_request, nextBiz]
    · rcases o with msg | ⟨s1, b1⟩
      · simp [make_request, nextBiz]
      · by_cases h401 : s1 = 401
        · rcases hr : refresh_access_token st store tok with ⟨flag, st1, store1⟩
          cases flag
          · simp [make_request, nextBiz, h401, hr]
          · rcases rest with _ | ⟨o2, rest2⟩
            · simp [make_request, nextBiz, h401, hr]
            · rcases o2 with msg2 | ⟨s2, b2⟩
              · simp [make_request, nextBiz, h401, hr]
              · simp [make_request, nextBiz, h401, hr]
        · simp [make_request, nextBiz, h401]
  · intro n b st1 store1 hrefresh
    have hfix := refresh_true_fixed hrefresh
    have hrep : List.replicate (n + 2) (BizOutcome.resp 401 b) =
        .resp 401 b :: .resp 401 b :: List.replicate n (.resp 401 b) := by
      simp [List.replicate_succ]
    have h4 : 400 ≤ 401 ∧ 401 < 600 := by omega
    rw [hrep]
    simp [make_request, nextBiz, hrefresh, finishResponse, h4, hfix.1, hfix.2]

/-- Witness for C2: an always-401 script of length 2. -/
theorem C2_no_retry_storm_witness :
    make_request st0 store0 (List.replicate 2 (.resp 401 none)) goodTok =
      { result := .error (.httpStatusError 401), st := stNew, store := storeNew,
        bizCalls := 2, refreshCalls := 1,
        sentAuth := ["Bearer oldA", "Bearer newA"] } :=
  (C2_no_retry_storm st0 store0 goodTok).2 0 none stNew storeNew rfl

/-- C5: after every successful refresh the in-memory pair equals the
pair just persisted (every `id = 1` row of the new store carries
exactly the new access and refresh tokens), the `Authorization` header
is rebuilt from the new access token, and the request retried after the
refresh carries the new — never the stale — access token. -/
theorem C5_resync_after_refresh (st st1 : APIState) (store store1 : TokenStore)
    (tok : TokenOutcome)
    (hrefresh : refresh_access_token st store tok = (true, st1, store1)) :
    st1.headers.authorization = "Bearer " ++ st1.access_token ∧
    (∀ row ∈ store1.rows, row.id = 1 →
       row.access_token = st1.access_token ∧ row.refresh_token = st1.refresh_token) ∧
    (∀ b1 s2 b2 rest,
       (make_request st store (.resp 401 b1 :: .resp s2 b2 :: rest) tok).sentAuth =
         [st.headers.authorization, "Bearer " ++ st1.access_token]) := by
  have hfix := refresh_true_fixed hrefresh
  rcases refresh_true_spec hrefresh with ⟨a, r, hst, hstore⟩
  refine ⟨hfix.2, ?_, ?_⟩
  · intro row hrow hrowid
    subst hst
    subst hstore
    simp only [committedStore, sqlUpdateRows] at hrow
    rcases List.mem_map.mp hrow with ⟨y, hy, hy2⟩
    by_cases hyid : y.id = 1
    · rw [← hy2]
      simp [hyid, resyncedState, update_headers]
    · exfalso
      rw [← hy2] at hrowid
      simp [hyid] at hrowid
  · intro b1 s2 b2 rest
    simp [make_request, nextBiz, hrefresh, hfix.1, hfix.2]

/-- Witness for C5: the concrete 401-then-retry run against the one-row
store. -/
theorem C5_resync_after_refresh_witness :
    stNew.headers.authorization = "Bearer " ++ stNew.access_token ∧
    (∀ row ∈ storeNew.rows, row.id = 1 →
       row.access_token = stNew.access_token ∧ row.refresh_token = stNew.refresh_token) ∧
    (∀ b1 s2 b2 rest,
       (make_request st0 store0 (.resp 401 b1 :: .resp s2 b2 :: rest) goodTok).sentAuth =
         ["Bearer oldA", "Bearer " ++ stNew.access_token]) :=
  C5_resync_after_refresh st0 stNew store0 storeNew goodTok rfl

/-- C8: whenever the wrapped `_make_request` raises — transport error,
non-success status, failed refresh path, or malformed JSON body —
`get_contact_pipeline` returns the empty string and `send_sms` returns
`False`; both helpers are total functions of their inputs, so no
exception escapes them. -/
theorem C8_best_effort (st : APIState) (store : TokenStore)
    (biz : List BizOutcome) (tok : TokenOutcome) :
    ∀ e, (make_request st store biz tok).result = .error e →
      (get_contact_pipeline st store biz tok).1 = .str "" ∧
      (send_sms st store biz tok).1 = false := by
  intro e he
  constructor
  · simp [get_contact_pipeline, he]
  · simp [send_sms, he]

/-- Witness for C8: a 500 response makes both helpers return their
benign defaults. -/
theorem C8_best_effort_witness :
    (get_contact_pipeline st0 store0 [.resp 500 none] goodTok).1 = .str "" ∧
    (send_sms st0 store0 [.resp 500 none] goodTok).1 = false :=
  C8_best_effort st0 store0 [.resp 500 none] goodTok (.httpStatusError 500) rfl

set_option maxRecDepth 100000 in
/-- C7 (the claimed behavior fails on the code; the spec itself flags
the reference behavior as a latent correctness gap to fix):
`get_authorization_url` concatenates raw parameter values with no
percent-encoding, so for a `client_id` containing `&` standard URL
parsing recovers `my` — not the supplied `my&client`. -/
theorem C7_url_encoding_bug :
    parsedParamOfUrl (get_authorization_url "my&client" "https://app.example/cb" none)
        "client_id" = some "my".data ∧
    some "my".data ≠ some "my&client".data := by
  constructor
  · decide
  · decide
